import Mathlib

/-!
Shallow embedding of the flask-security confirmation / registration /
authentication layer (files `confirmable.py`, `views.py`, `utils.py`).

Modelling conventions:
* Timestamps (`datetime.utcnow()`) are `Int` epoch values; durations
  (`confirm_email_within`, a `timedelta`) are `Int`.
* The external datastore is a `List User`; `find_user(confirmation_token=t)`
  is a first-match scan, `_save_model` replaces the record with the same id
  (or appends a new one).
* Side effects (sent mails, emitted signals, flash messages, the framework
  login session) are threaded through an explicit `World` state; functions
  return their result paired with the updated `World`.
* Python exceptions become `Except SecError`; an error return carries the
  `World` as it stood when the exception was raised.
* The unbounded retry loop in `generate_confirmation_token` consumes an
  explicit stream of candidate tokens (the successive outputs of
  `generate_token`, i.e. `os.urandom`); exhausting the list models the
  (probability-zero) divergence of the loop and yields `none`.
-/

/-- A user record as persisted by the external datastore
(spec section 3: identity/email, `confirmed_at`, `confirmation_token`,
`confirmation_sent_at`; `active` is the flag flask-login's `login_user`
consults). -/
structure User where
  id : Nat
  email : String
  active : Bool
  confirmed_at : Option Int
  confirmation_token : Option String
  confirmation_sent_at : Option Int
deriving Repr, DecidableEq

/-- Errors raised by the confirmable layer (`exceptions.py`):
`UserNotFoundError`, `ConfirmationError`, `TokenExpiredError` (which
carries the affected user for reissue). -/
inductive SecError where
  | userNotFound
  | confirmation (msg : String)
  | tokenExpired (msg : String) (user : User)
deriving Repr, DecidableEq

/-- Signals sent through blinker (`signals.py` plus flask-principal's
identity signal). -/
inductive Signal where
  | user_registered (u : User)
  | confirm_instructions_sent (u : User)
  | user_confirmed (u : User)
  | identity_changed (uid : Nat)
deriving Repr, DecidableEq

/-- An email handed to `send_mail` in `utils.py` (subject, recipient and
template base name; the rendered context is not modelled). -/
structure Email where
  subject : String
  recipient : String
  template : String
deriving Repr, DecidableEq

/-- The observable state threaded through the request handlers: the
datastore contents, the mails dispatched, the signals emitted, the flash
messages shown, and the framework login session. -/
structure World where
  users : List User
  sentEmails : List Email
  signals : List Signal
  flashes : List (String × String)
  loggedIn : Option Nat
deriving Repr, DecidableEq

/-- The `app.security` configuration surface read by the three files
(`confirm_email`, `confirm_email_within`, `login_without_confirmation`,
the flash toggle, and the redirect-target view values). -/
structure Security where
  confirm_email : Bool
  confirm_email_within : Int
  login_without_confirmation : Bool
  flash_messages : Bool
  post_login_view : String
  post_register_view : Option String
  register_url : String
  login_view : String
deriving Repr, DecidableEq

/-- Python's `a or b` on an optional string: `None` and the empty string
are falsy. -/
def pyOrStr (a : Option String) (b : String) : String :=
  match a with
  | none => b
  | some s => if s.isEmpty then b else s

/-- Python truthiness test `not token` on an optional token string. -/
def tokenFalsy : Option String → Bool
  | none => true
  | some s => s.isEmpty

/-- `_datastore.find_user(confirmation_token=token)`: first user holding
the token, else `UserNotFoundError`. -/
def find_user (users : List User) (token : String) : Except SecError User :=
  match users.find? (fun u => u.confirmation_token == some token) with
  | some u => Except.ok u
  | none => Except.error SecError.userNotFound

/-- `confirmable.find_user_by_confirmation_token`: rejects falsy tokens
with a `ConfirmationError`, otherwise queries the datastore. -/
def find_user_by_confirmation_token (users : List User) (token : Option String) :
    Except SecError User :=
  match token with
  | none => Except.error (SecError.confirmation "Confirmation token required")
  | some s =>
    if s.isEmpty then Except.error (SecError.confirmation "Confirmation token required")
    else find_user users s

/-- The `while True` probe loop of `generate_confirmation_token` over the
stream of `generate_token()` outputs: a candidate on which the lookup
raises `UserNotFoundError` is returned; a candidate held by some user is
skipped; any other exception propagates; an exhausted stream models
divergence. -/
def genLoop (users : List User) : List String → Option (Except SecError String)
  | [] => none
  | t :: ts =>
    match find_user_by_confirmation_token users (some t) with
    | Except.ok _ => genLoop users ts
    | Except.error SecError.userNotFound => some (Except.ok t)
    | Except.error e => some (Except.error e)

/-- `confirmable.generate_confirmation_token`: probe for a fresh token,
stamp `utcnow`, assign both fields onto the user record and return it.
(The `try/except TypeError` mapping-vs-attribute dual write collapses to a
single record update here.) -/
def generate_confirmation_token (cands : List String) (now : Int) (user : User)
    (users : List User) : Option (Except SecError User) :=
  match genLoop users cands with
  | none => none
  | some (Except.error e) => some (Except.error e)
  | some (Except.ok t) =>
    some (Except.ok { user with confirmation_token := some t, confirmation_sent_at := some now })

/-- `_datastore._save_model`: replace the stored record with the same id,
appending when the user is new. -/
def saveModel (users : List User) (u : User) : List User :=
  if users.any (fun v => v.id == u.id) then
    users.map (fun v => if v.id == u.id then u else v)
  else users ++ [u]

/-- `confirmable.send_confirmation_instructions`: dispatch the templated
confirmation mail to the user's address and emit
`confirm_instructions_sent`; returns `True`. -/
def send_confirmation_instructions (user : User) (w : World) : Bool × World :=
  (true,
   { w with
     sentEmails := w.sentEmails ++
       [{ subject := "Please confirm your email", recipient := user.email,
          template := "confirmation_instructions" }],
     signals := w.signals ++ [Signal.confirm_instructions_sent user] })

/-- `confirmable.requires_confirmation`, short-circuited to `False` by the
`should_confirm_email` decorator when confirmation is disabled. -/
def requires_confirmation (sec : Security) (user : User) : Bool :=
  if sec.confirm_email then user.confirmed_at == none else false

/-- `confirmable.confirmation_token_is_expired`, short-circuited to
`False` by `should_confirm_email` when confirmation is disabled; when
enabled it tests `confirmation_sent_at < utcnow() - confirm_email_within`.
(Python 2 orders `None` below every `datetime`, so a null
`confirmation_sent_at` counts as expired.) -/
def confirmation_token_is_expired (sec : Security) (now : Int) (user : User) : Bool :=
  if sec.confirm_email then
    match user.confirmation_sent_at with
    | none => true
    | some s => decide (s < now - sec.confirm_email_within)
  else false

/-- `confirmable.confirm_by_token`: look the user up by token
(translating `UserNotFoundError` into a `ConfirmationError`), reject an
already-confirmed user, reject an expired token with a `TokenExpiredError`
carrying the user, otherwise stamp `confirmed_at`, persist, emit
`user_confirmed` and return the user. The commented-out clearing of
`confirmation_token` / `confirmation_sent_at` is absent, as in the source. -/
def confirm_by_token (sec : Security) (now : Int) (token : Option String) (w : World) :
    Except SecError User × World :=
  match find_user_by_confirmation_token w.users token with
  | Except.error SecError.userNotFound =>
    (Except.error (SecError.confirmation "Invalid confirmation token"), w)
  | Except.error e => (Except.error e, w)
  | Except.ok user =>
    if user.confirmed_at.isSome then
      (Except.error (SecError.confirmation "Account has already been confirmed"), w)
    else if confirmation_token_is_expired sec now user then
      (Except.error (SecError.tokenExpired "Confirmation token is expired" user), w)
    else
      let u' := { user with confirmed_at := some now }
      let w1 := { w with users := saveModel w.users u' }
      let w2 := { w1 with signals := w1.signals ++ [Signal.user_confirmed u'] }
      (Except.ok u', w2)

/-- `confirmable.reset_confirmation_token`: regenerate the token, persist
the updated user, and re-send the confirmation instructions (the mutated
user object is the one saved and mailed). -/
def reset_confirmation_token (cands : List String) (now : Int) (user : User) (w : World) :
    Option (Except SecError Unit × World) :=
  match generate_confirmation_token cands now user w.users with
  | none => none
  | some (Except.error e) => some (Except.error e, w)
  | some (Except.ok u') =>
    let w1 := { w with users := saveModel w.users u' }
    let w2 := (send_confirmation_instructions u' w1).2
    some (Except.ok (), w2)

/-- `utils.do_flash`: record the flash message only when the
`SECURITY_FLASH_MESSAGES` toggle is on. -/
def do_flash (sec : Security) (message category : String) (w : World) : World :=
  if sec.flash_messages then { w with flashes := w.flashes ++ [(message, category)] } else w

/-- Modelled from the spec: flask-login's `login_user` is an external
collaborator (spec sections 1 and 4.2); it establishes the session and
returns `True` for an active user, and returns `False` for an inactive
one (`views.py` maps that `False` to a `BadCredentialsError('Inactive
user')`). -/
def login_user (user : User) (w : World) : Bool × World :=
  if user.active then (true, { w with loggedIn := some user.id }) else (false, w)

/-- `views._do_login`: on a successful `login_user` also broadcast the
identity change. -/
def do_login (user : User) (w : World) : Bool × World :=
  match login_user user w with
  | (true, w') => (true, { w' with signals := w'.signals ++ [Signal.identity_changed user.id] })
  | (false, w') => (false, w')

/-- Outcome of the external `auth_provider.authenticate(form)` call inside
the `try` of `views.authenticate`: a user, a `BadCredentialsError`, or any
other exception. -/
inductive AuthAttempt where
  | success (user : User)
  | badCredentials (msg : String)
  | otherException
deriving Repr, DecidableEq

/-- The shared failure tail of `views.authenticate`: flash the message as
an error and redirect to the referrer or the login view. -/
def authFailure (sec : Security) (msg : String) (referrer : Option String) (w : World) :
    String × World :=
  (pyOrStr referrer sec.login_view, do_flash sec msg "error" w)

/-- `views.authenticate`: attempt the login; on success redirect to the
post-login target; a `False` from `_do_login` raises
`BadCredentialsError('Inactive user')` which the handler below catches; a
`BadCredentialsError` flashes its own message; any other exception
flashes 'Unknown authentication error'. Every failure redirects to the
referrer or the login view. -/
def authenticate (sec : Security) (attempt : AuthAttempt) (referrer : Option String)
    (postLoginTarget : String) (w : World) : String × World :=
  match attempt with
  | AuthAttempt.success user =>
    match do_login user w with
    | (true, w') => (postLoginTarget, w')
    | (false, w') => authFailure sec "Inactive user" referrer w'
  | AuthAttempt.badCredentials msg => authFailure sec msg referrer w
  | AuthAttempt.otherException => authFailure sec "Unknown authentication error" referrer w

/-- The registration form as seen by `views.register`: whether
`validate_on_submit` succeeds, and the submitted fields (`to_dict`). -/
structure RegisterForm where
  validates : Bool
  email : String
deriving Repr, DecidableEq

/-- Modelled from the spec: the external datastore contract
`create_user(**fields) -> User` (spec section 6) creates and persists a
fresh, active, unconfirmed user with no confirmation token yet. -/
def create_user (form : RegisterForm) (freshId : Nat) : User :=
  { id := freshId, email := form.email, active := true,
    confirmed_at := none, confirmation_token := none, confirmation_sent_at := none }

/-- `views.register`: exit early when the form does not validate; else
create the user, emit `user_registered`, send confirmation instructions
when `confirm_email` is on, log the user in when confirmation is off or
`login_without_confirmation` is on, and redirect to the post-register (or
post-login) view. -/
def register (sec : Security) (form : RegisterForm) (freshId : Nat)
    (referrer : Option String) (w : World) : String × World :=
  if form.validates then
    let user := create_user form freshId
    let w1 := { w with users := w.users ++ [user] }
    let w2 := { w1 with signals := w1.signals ++ [Signal.user_registered user] }
    let w3 := if sec.confirm_email then (send_confirmation_instructions user w2).2 else w2
    let w4 := if !sec.confirm_email || sec.login_without_confirmation
              then (do_login user w3).2 else w3
    (pyOrStr sec.post_register_view sec.post_login_view, w4)
  else
    (pyOrStr referrer sec.register_url, w)

/-- Number of `user_confirmed` signals in an emission trace. -/
def countConfirmed (sigs : List Signal) : Nat :=
  (sigs.filter (fun s => match s with | Signal.user_confirmed _ => true | _ => false)).length

/-- A configuration with confirmation required, auto-login off and flash
messages on. -/
def secOn : Security :=
  { confirm_email := true, confirm_email_within := 5,
    login_without_confirmation := false, flash_messages := true,
    post_login_view := "/post_login", post_register_view := some "/post_register",
    register_url := "/register", login_view := "/login" }

/-- The same configuration with confirmation disabled. -/
def secOff : Security := { secOn with confirm_email := false }

/-- An unconfirmed user holding token "tok1" issued at time 100. -/
def userFresh : User :=
  { id := 1, email := "alice@example.com", active := true,
    confirmed_at := none, confirmation_token := some "tok1",
    confirmation_sent_at := some 100 }

/-- An already-confirmed user holding token "tok9". -/
def userDone : User :=
  { id := 2, email := "bob@example.com", active := true,
    confirmed_at := some 50, confirmation_token := some "tok9",
    confirmation_sent_at := some 40 }

/-- An inactive user. -/
def userInactive : User :=
  { id := 3, email := "carol@example.com", active := false,
    confirmed_at := none, confirmation_token := none, confirmation_sent_at := none }

/-- A world whose datastore holds only `userFresh`. -/
def worldA : World :=
  { users := [userFresh], sentEmails := [], signals := [], flashes := [], loggedIn := none }

/-- A world whose datastore holds only `userDone`. -/
def worldB : World :=
  { users := [userDone], sentEmails := [], signals := [], flashes := [], loggedIn := none }

/-- A valid registration submission. -/
def formOk : RegisterForm := { validates := true, email := "dave@example.com" }

/-- A submission failing validation. -/
def formBad : RegisterForm := { validates := false, email := "dave@example.com" }

/-- A user returned by `find_user_by_confirmation_token` is stored in the
datastore and holds exactly the queried token. -/
theorem find_user_by_token_spec (users : List User) (token : Option String) (u : User)
    (h : find_user_by_confirmation_token users token = Except.ok u) :
    u ∈ users ∧ u.confirmation_token = token := by
  unfold find_user_by_confirmation_token at h
  cases token with
  | none => simp at h
  | some s =>
    by_cases he : s.isEmpty
    · simp [he] at h
    · simp only [he, Bool.false_eq_true, if_false] at h
      unfold find_user at h
      cases hf : users.find? (fun v => v.confirmation_token == some s) with
      | none => rw [hf] at h; simp at h
      | some v =>
        rw [hf] at h
        simp at h
        subst h
        refine ⟨List.mem_of_find?_eq_some hf, ?_⟩
        have := List.find?_some hf
        simpa using this

/-- When `find_user_by_confirmation_token` reports `UserNotFoundError`,
no stored user holds the queried token. -/
theorem find_user_by_token_none (users : List User) (s : String)
    (h : find_user_by_confirmation_token users (some s) =
      Except.error SecError.userNotFound) :
    ∀ v ∈ users, v.confirmation_token ≠ some s := by
  unfold find_user_by_confirmation_token at h
  by_cases he : s.isEmpty
  · simp [he] at h
  · simp only [he, Bool.false_eq_true, if_false] at h
    unfold find_user at h
    cases hf : users.find? (fun v => v.confirmation_token == some s) with
    | some v => rw [hf] at h; simp at h
    | none =>
      intro v hv
      have := List.find?_eq_none.mp hf v hv
      simpa using this

/-- A token on which the generation loop stops is held by no stored user. -/
theorem genLoop_fresh (users : List User) (cands : List String) (t : String)
    (h : genLoop users cands = some (Except.ok t)) :
    ∀ v ∈ users, v.confirmation_token ≠ some t := by
  induction cands with
  | nil => simp [genLoop] at h
  | cons c cs ih =>
    rw [genLoop] at h
    cases hf : find_user_by_confirmation_token users (some c) with
    | ok v => rw [hf] at h; exact ih h
    | error e =>
      cases e with
      | userNotFound =>
        rw [hf] at h
        simp at h
        subst h
        exact find_user_by_token_none users _ hf
      | confirmation m => rw [hf] at h; simp at h
      | tokenExpired m u2 => rw [hf] at h; simp at h

/-- Claim C2: when confirmation is enabled, the expiry predicate holds iff
`now - confirmation_sent_at > confirm_email_within`; when confirmation is
disabled it is unconditionally false. -/
theorem expiry_predicate_spec (sec : Security) (now : Int) (u : User) (s : Int)
    (hs : u.confirmation_sent_at = some s) :
    (sec.confirm_email = true →
      (confirmation_token_is_expired sec now u = true ↔
        now - s > sec.confirm_email_within))
    ∧ (sec.confirm_email = false → confirmation_token_is_expired sec now u = false) := by
  unfold confirmation_token_is_expired
  rw [hs]
  constructor
  · intro h
    simp [h]
    omega
  · intro h
    simp [h]

/-- Concrete instance of the expiry predicate characterisation. -/
theorem expiry_predicate_spec_witness :
    (secOn.confirm_email = true →
      (confirmation_token_is_expired secOn 200 userFresh = true ↔
        200 - 100 > secOn.confirm_email_within))
    ∧ (secOn.confirm_email = false →
      confirmation_token_is_expired secOn 200 userFresh = false) :=
  expiry_predicate_spec secOn 200 userFresh 100 (by rfl)

/-- Claim C6: `confirm_by_token` on an already-confirmed user raises
`ConfirmationError` and leaves the whole world — datastore included —
unchanged: no field of the user is mutated and no save occurs. -/
theorem confirm_already_confirmed (sec : Security) (now : Int) (token : Option String)
    (w : World) (u : User)
    (hfind : find_user_by_confirmation_token w.users token = Except.ok u)
    (hc : u.confirmed_at.isSome = true) :
    confirm_by_token sec now token w =
      (Except.error (SecError.confirmation "Account has already been confirmed"), w) := by
  simp [confirm_by_token, hfind, hc]

/-- Concrete instance: confirming `userDone`'s token fails without mutation. -/
theorem confirm_already_confirmed_witness :
    confirm_by_token secOn 200 (some "tok9") worldB =
      (Except.error (SecError.confirmation "Account has already been confirmed"), worldB) :=
  confirm_already_confirmed secOn 200 (some "tok9") worldB userDone (by rfl) (by rfl)

/-- Claim C7: on a null, empty, or unknown token `confirm_by_token`
raises a `ConfirmationError` (never any other error) and leaves the world
unchanged. -/
theorem confirm_bad_token (sec : Security) (now : Int) (token : Option String) (w : World)
    (h : tokenFalsy token = true ∨ ∀ u ∈ w.users, u.confirmation_token ≠ token) :
    ∃ msg, confirm_by_token sec now token w =
      (Except.error (SecError.confirmation msg), w) := by
  cases token with
  | none =>
    exact ⟨"Confirmation token required", by simp [confirm_by_token, find_user_by_confirmation_token]⟩
  | some s =>
    by_cases he : s.isEmpty
    · exact ⟨"Confirmation token required",
        by simp [confirm_by_token, find_user_by_confirmation_token, he]⟩
    · have hall : ∀ u ∈ w.users, u.confirmation_token ≠ some s := by
        rcases h with h1 | h2
        · exfalso; simp [tokenFalsy, he] at h1
        · exact h2
      have hnone : w.users.find? (fun v => v.confirmation_token == some s) = none := by
        rw [List.find?_eq_none]
        intro v hv
        simp only [beq_iff_eq]
        exact hall v hv
      exact ⟨"Invalid confirmation token",
        by simp [confirm_by_token, find_user_by_confirmation_token, he, find_user, hnone]⟩

/-- Concrete instance: a null token yields a `ConfirmationError`. -/
theorem confirm_bad_token_witness :
    ∃ msg, confirm_by_token secOn 200 none worldA =
      (Except.error (SecError.confirmation msg), worldA) :=
  confirm_bad_token secOn 200 none worldA (Or.inl (by rfl))

/-- Claim C10: when the registration form fails to validate, `register`
performs no state change and redirects to the referrer or the register
URL. -/
theorem register_invalid_form (sec : Security) (form : RegisterForm) (freshId : Nat)
    (referrer : Option String) (w : World) (h : form.validates = false) :
    register sec form freshId referrer w = (pyOrStr referrer sec.register_url, w) := by
  simp [register, h]

/-- Concrete instance: an invalid submission leaves `worldA` untouched. -/
theorem register_invalid_form_witness :
    register secOn formBad 7 none worldA = (pyOrStr none secOn.register_url, worldA) :=
  register_invalid_form secOn formBad 7 none worldA (by rfl)

/-- Claim C9: every failing authentication attempt is swallowed into a
flash message — the specific one for `BadCredentialsError` (including the
'Inactive user' case), the generic 'Unknown authentication error' for any
other exception — followed by a redirect to the referrer or the login
view. -/
theorem authenticate_failures (sec : Security) (referrer : Option String) (target : String)
    (w : World) (m : String) (u : User)
    (hf : sec.flash_messages = true) (hu : u.active = false) :
    authenticate sec (AuthAttempt.badCredentials m) referrer target w =
      (pyOrStr referrer sec.login_view, { w with flashes := w.flashes ++ [(m, "error")] })
    ∧ authenticate sec AuthAttempt.otherException referrer target w =
      (pyOrStr referrer sec.login_view,
        { w with flashes := w.flashes ++ [("Unknown authentication error", "error")] })
    ∧ authenticate sec (AuthAttempt.success u) referrer target w =
      (pyOrStr referrer sec.login_view,
        { w with flashes := w.flashes ++ [("Inactive user", "error")] }) := by
  refine ⟨?_, ?_, ?_⟩ <;>
    simp [authenticate, authFailure, do_flash, do_login, login_user, hf, hu]

/-- Concrete instance of the three authentication failure shapes. -/
theorem authenticate_failures_witness :
    authenticate secOn (AuthAttempt.badCredentials "bad password") none "/t" worldA =
      (pyOrStr none secOn.login_view,
        { worldA with flashes := worldA.flashes ++ [("bad password", "error")] })
    ∧ authenticate secOn AuthAttempt.otherException none "/t" worldA =
      (pyOrStr none secOn.login_view,
        { worldA with flashes := worldA.flashes ++ [("Unknown authentication error", "error")] })
    ∧ authenticate secOn (AuthAttempt.success userInactive) none "/t" worldA =
      (pyOrStr none secOn.login_view,
        { worldA with flashes := worldA.flashes ++ [("Inactive user", "error")] }) :=
  authenticate_failures secOn none "/t" worldA "bad password" userInactive (by rfl) (by rfl)

/-- Claim C4: on a valid, unexpired, not-yet-confirmed token,
`confirm_by_token` sets `confirmed_at` to the current (non-null)
timestamp, persists the user via the datastore, and emits exactly one
`user_confirmed` notification before returning the user. -/
theorem confirm_success (sec : Security) (now : Int) (token : Option String) (w : World)
    (u : User)
    (hfind : find_user_by_confirmation_token w.users token = Except.ok u)
    (hc : u.confirmed_at = none)
    (he : confirmation_token_is_expired sec now u = false) :
    ∃ u' w', confirm_by_token sec now token w = (Except.ok u', w')
      ∧ u'.confirmed_at = some now
      ∧ w'.users = saveModel w.users u'
      ∧ countConfirmed w'.signals = countConfirmed w.signals + 1 := by
  refine ⟨{ u with confirmed_at := some now },
    { w with users := saveModel w.users { u with confirmed_at := some now },
             signals := w.signals ++
               [Signal.user_confirmed { u with confirmed_at := some now }] },
    ?_, rfl, rfl, ?_⟩
  · simp [confirm_by_token, hfind, hc, he]
  · simp [countConfirmed, List.filter_append]

/-- Concrete instance: confirming `userFresh`'s unexpired token succeeds. -/
theorem confirm_success_witness :
    ∃ u' w', confirm_by_token secOn 102 (some "tok1") worldA = (Except.ok u', w')
      ∧ u'.confirmed_at = some 102
      ∧ w'.users = saveModel worldA.users u'
      ∧ countConfirmed w'.signals = countConfirmed worldA.signals + 1 :=
  confirm_success secOn 102 (some "tok1") worldA userFresh (by rfl) (by rfl) (by rfl)

/-- Claim C8: a successful confirmation leaves `confirmation_token` and
`confirmation_sent_at` untouched (the clearing code is commented out in
the source): the consumed token is still stored on the saved user. -/
theorem confirm_keeps_token (sec : Security) (now : Int) (token : Option String) (w : World)
    (u : User)
    (hfind : find_user_by_confirmation_token w.users token = Except.ok u)
    (hc : u.confirmed_at = none)
    (he : confirmation_token_is_expired sec now u = false) :
    ∃ u' w', confirm_by_token sec now token w = (Except.ok u', w')
      ∧ u'.confirmation_token = u.confirmation_token
      ∧ u'.confirmation_sent_at = u.confirmation_sent_at
      ∧ w'.users = saveModel w.users u' := by
  refine ⟨{ u with confirmed_at := some now },
    { w with users := saveModel w.users { u with confirmed_at := some now },
             signals := w.signals ++
               [Signal.user_confirmed { u with confirmed_at := some now }] },
    ?_, rfl, rfl, rfl⟩
  simp [confirm_by_token, hfind, hc, he]

/-- Concrete instance: after confirming `userFresh`, the token "tok1" is
still stored on the user. -/
theorem confirm_keeps_token_witness :
    ∃ u' w', confirm_by_token secOn 102 (some "tok1") worldA = (Except.ok u', w')
      ∧ u'.confirmation_token = userFresh.confirmation_token
      ∧ u'.confirmation_sent_at = userFresh.confirmation_sent_at
      ∧ w'.users = saveModel worldA.users u' :=
  confirm_keeps_token secOn 102 (some "tok1") worldA userFresh (by rfl) (by rfl) (by rfl)

/-- Claim C3: a user record produced by `generate_confirmation_token`
carries a token held by no user present in the datastore at the moment of
assignment. -/
theorem generated_token_fresh (cands : List String) (now : Int) (user u' : User)
    (users : List User)
    (h : generate_confirmation_token cands now user users = some (Except.ok u')) :
    ∀ v ∈ users, v.confirmation_token ≠ u'.confirmation_token := by
  unfold generate_confirmation_token at h
  cases hg : genLoop users cands with
  | none => rw [hg] at h; simp at h
  | some r =>
    cases r with
    | error e => rw [hg] at h; simp at h
    | ok t =>
      rw [hg] at h
      have h3 : u' =
          { user with confirmation_token := some t, confirmation_sent_at := some now } :=
        (Except.ok.inj (Option.some.inj h)).symm
      rw [h3]
      show ∀ v ∈ users, v.confirmation_token ≠ some t
      exact genLoop_fresh users cands t hg

/-- Concrete instance: the token generated against `worldA`'s datastore
("tok2", after probing past the collision on "tok1") is fresh. -/
theorem generated_token_fresh_witness :
    userFresh.confirmation_token ≠
      ({ userFresh with confirmation_token := some "tok2",
                        confirmation_sent_at := some 201 } : User).confirmation_token :=
  generated_token_fresh ["tok1", "tok2"] 201 userFresh
    { userFresh with confirmation_token := some "tok2", confirmation_sent_at := some 201 }
    worldA.users (by rfl) userFresh (by simp [worldA])

/-- Claim C1: on an expired, unconfirmed token `confirm_by_token` raises
`TokenExpiredError` carrying the found user and changes nothing; a
subsequent `reset_confirmation_token` on that user assigns a token
different from the expired one (the old token is still stored, so the
probe loop skips it), persists the update, and dispatches exactly one
confirmation email. -/
theorem expired_token_reset (sec : Security) (now1 now2 : Int) (token : Option String)
    (w : World) (u : User) (cands : List String) (tnew : String)
    (hfind : find_user_by_confirmation_token w.users token = Except.ok u)
    (hc : u.confirmed_at = none)
    (he : confirmation_token_is_expired sec now1 u = true)
    (hgen : genLoop w.users cands = some (Except.ok tnew)) :
    confirm_by_token sec now1 token w =
      (Except.error (SecError.tokenExpired "Confirmation token is expired" u), w)
    ∧ some tnew ≠ u.confirmation_token
    ∧ reset_confirmation_token cands now2 u w =
        some (Except.ok (),
          { w with
            users := saveModel w.users
              { u with confirmation_token := some tnew, confirmation_sent_at := some now2 },
            sentEmails := w.sentEmails ++
              [{ subject := "Please confirm your email", recipient := u.email,
                 template := "confirmation_instructions" }],
            signals := w.signals ++
              [Signal.confirm_instructions_sent
                { u with confirmation_token := some tnew,
                         confirmation_sent_at := some now2 }] })
    ∧ (w.sentEmails ++
        [({ subject := "Please confirm your email", recipient := u.email,
            template := "confirmation_instructions" } : Email)]).length
        = w.sentEmails.length + 1 := by
  refine ⟨?_, ?_, ?_, by simp⟩
  · simp [confirm_by_token, hfind, hc, he]
  · have hmem := (find_user_by_token_spec w.users token u hfind).1
    have hne := genLoop_fresh w.users cands tnew hgen u hmem
    exact fun hh => hne hh.symm
  · simp [reset_confirmation_token, generate_confirmation_token, hgen,
      send_confirmation_instructions]

/-- Concrete instance: `userFresh`'s token "tok1" presented at time 200 is
expired; the reissued token is "tok2" ≠ "tok1" with one mail dispatched. -/
theorem expired_token_reset_witness :
    confirm_by_token secOn 200 (some "tok1") worldA =
      (Except.error (SecError.tokenExpired "Confirmation token is expired" userFresh),
        worldA)
    ∧ some "tok2" ≠ userFresh.confirmation_token
    ∧ reset_confirmation_token ["tok1", "tok2"] 201 userFresh worldA =
        some (Except.ok (),
          { worldA with
            users := saveModel worldA.users
              { userFresh with confirmation_token := some "tok2",
                               confirmation_sent_at := some 201 },
            sentEmails := worldA.sentEmails ++
              [{ subject := "Please confirm your email", recipient := userFresh.email,
                 template := "confirmation_instructions" }],
            signals := worldA.signals ++
              [Signal.confirm_instructions_sent
                { userFresh with confirmation_token := some "tok2",
                                 confirmation_sent_at := some 201 }] })
    ∧ (worldA.sentEmails ++
        [({ subject := "Please confirm your email", recipient := userFresh.email,
            template := "confirmation_instructions" } : Email)]).length
        = worldA.sentEmails.length + 1 :=
  expired_token_reset secOn 200 201 (some "tok1") worldA userFresh ["tok1", "tok2"] "tok2"
    (by rfl) (by rfl) (by rfl) (by rfl)

/-- Claim C5: on a valid submission, `register` with confirmation required
and auto-login disabled sends exactly one confirmation email and does not
log the new user in; with confirmation disabled it logs the new user in
and sends zero confirmation emails. -/
theorem register_confirmation_modes (sec : Security) (form : RegisterForm) (freshId : Nat)
    (referrer : Option String) (w : World) (hv : form.validates = true) :
    (sec.confirm_email = true → sec.login_without_confirmation = false →
      (register sec form freshId referrer w).2.sentEmails.length = w.sentEmails.length + 1
      ∧ (register sec form freshId referrer w).2.loggedIn = w.loggedIn)
    ∧ (sec.confirm_email = false →
      (register sec form freshId referrer w).2.loggedIn = some freshId
      ∧ (register sec form freshId referrer w).2.sentEmails.length
          = w.sentEmails.length) := by
  constructor
  · intro h1 h2
    simp [register, hv, h1, h2, send_confirmation_instructions, do_login, login_user,
      create_user]
  · intro h1
    simp [register, hv, h1, send_confirmation_instructions, do_login, login_user,
      create_user]

/-- Concrete instance of the two registration modes at `secOn`. -/
theorem register_confirmation_modes_witness :
    (secOn.confirm_email = true → secOn.login_without_confirmation = false →
      (register secOn formOk 7 none worldA).2.sentEmails.length
          = worldA.sentEmails.length + 1
      ∧ (register secOn formOk 7 none worldA).2.loggedIn = worldA.loggedIn)
    ∧ (secOn.confirm_email = false →
      (register secOn formOk 7 none worldA).2.loggedIn = some 7
      ∧ (register secOn formOk 7 none worldA).2.sentEmails.length
          = worldA.sentEmails.length) :=
  register_confirmation_modes secOn formOk 7 none worldA (by rfl)
